import Mathlib

/-!
Verification of the Leapp session-lifecycle core: a shallow embedding of
`src/app/services/session/aws/methods/aws-iam-user.service.ts`,
`src/app/services/daemon.service.ts` and the MFA websocket handler of
`src/app/app.component.ts`, together with theorems about the embedded
operations.

The daemon is modelled as an oracle `Daemon : RemoteCall → Except HttpFailure
String`; every dispatched HTTP request is recorded in an ordered trace so that
theorems can speak about which remote calls an operation issues and in which
order.  TypeScript promises that the source code does NOT await are modelled by
recording the dispatched request only: their resolution runs after the calling
function has already finished mutating the store, and (as proved by inspection
of the continuations, which act on ids that have just been removed) has no
further effect on the final state; their rejections are unhandled and reach no
caller.

Store helpers that live outside the three source files (the abstract
`SessionService` / `WorkspaceService` layer) are modelled from the spec and are
marked `Modelled from the spec:` in their doc comments.
-/

set_option linter.unusedVariables false

deriving instance DecidableEq for Except

namespace Leapp

/-- Session status, from the spec data model (§3): stopped/loading/active/error. -/
inductive SessionStatus
  | stopped
  | loading
  | active
  | error
deriving DecidableEq, Repr

/-- Session type tag: a plain IAM-user session or a chained role session. -/
inductive SessionType
  | awsIamUser
  | awsIamRoleChained
deriving DecidableEq, Repr

/-- A session row of the store.  `parentSessionId` is `some` only for chained
sessions (in TypeScript the field exists only on `AwsIamRoleChainedSession`). -/
structure Session where
  sessionId : String
  typ : SessionType
  status : SessionStatus
  sessionName : String
  region : String
  profileId : String
  mfaDevice : Option String
  parentSessionId : Option String
deriving DecidableEq, Repr

/-- The `DaemonUrls` enum of `daemon.service.ts`. -/
inductive DaemonUrls
  | openWebsocketConnection
  | iamUserConfirmMfaCode
  | createIamUser
  | getIamUser
  | editIamUser
  | deleteIamUser
  | startIamUserSession
  | stopIamUserSession
deriving DecidableEq, Repr

/-- `const apiRoot = '/api/v1'`. -/
def apiRoot : String := "/api/v1"

/-- The URL template string of each `DaemonUrls` enum member. -/
def DaemonUrls.template : DaemonUrls → String
  | .openWebsocketConnection => "/websocket/register-client"
  | .iamUserConfirmMfaCode => "/aws/iam-user-sessions/:id/confirm-mfa-token"
  | .createIamUser => "/aws/iam-user-sessions"
  | .getIamUser => "/aws/iam-user-sessions/:id"
  | .editIamUser => "/aws/iam-user-sessions/:id"
  | .deleteIamUser => "/aws/iam-user-sessions/:id"
  | .startIamUserSession => "/aws/iam-user-sessions/:id/start"
  | .stopIamUserSession => "/aws/iam-user-sessions/:id/stop"

/-- HTTP verbs used by `callDaemon`. -/
inductive Verb
  | GET
  | POST
  | PUT
  | DELETE
deriving DecidableEq, Repr

/-- JavaScript string coercion of `params['id']`: an absent binding is the
value `undefined`, which `String.prototype.replaceAll` coerces to the string
"undefined". -/
def jsToString : Option String → String
  | some s => s
  | none => "undefined"

/-- Replace every occurrence of ":id" in a character list, fuelled by the
length of the list (each step consumes at least one character, so the fuel
never runs out when initialised with the list length). -/
def replaceIdAux (repl : List Char) : Nat → List Char → List Char
  | _, [] => []
  | 0, l => l
  | fuel+1, c :: rest =>
    if (':' :: 'i' :: 'd' :: []).isPrefixOf (c :: rest) then
      repl ++ replaceIdAux repl fuel (rest.drop 2)
    else
      c :: replaceIdAux repl fuel rest

/-- `const transformVariables = (text) => text.replaceAll(':id', params['id'])`
from `callDaemon` (daemon.service.ts). -/
def transformVariables (paramsId : Option String) (text : String) : String :=
  ⟨replaceIdAux (jsToString paramsId).data text.data.length text.data⟩

/-- `http://localhost:8080${apiRoot}${url}` with `:id` substituted. -/
def daemonCommandUrl (url : DaemonUrls) (paramsId : Option String) : String :=
  transformVariables paramsId ("http://localhost:8080" ++ apiRoot ++ url.template)

/-- A dispatched HTTP request: the selected template, the `id` binding of the
`params` object (`none` when the caller passed no `id` field), the verb, and
the final URL that `callDaemon` computes and dispatches. -/
structure RemoteCall where
  template : DaemonUrls
  paramsId : Option String
  verb : Verb
  url : String
deriving DecidableEq, Repr

/-- Build the request `callDaemon` dispatches for a template and id binding. -/
def mkCall (t : DaemonUrls) (pid : Option String) (v : Verb) : RemoteCall :=
  ⟨t, pid, v, daemonCommandUrl t pid⟩

/-- A failed HTTP exchange as Angular's HttpClient reports it: `raw` stands for
the whole error object (transport error description or status line), and
`serverMessage` is `err.error.error` — the error field of the JSON body the
server sent, absent when the server sent none. -/
structure HttpFailure where
  raw : String
  serverMessage : Option String
deriving DecidableEq, Repr

/-- The daemon oracle: what the daemon answers to each request. -/
def Daemon := RemoteCall → Except HttpFailure String

/-- The errors of the embedded core.  `daemonError m` is
`LeappBaseError('Daemon Error', …, m)`; `sessionNotFound` is
`SessionNotFoundError`; `missingMfaToken m` is `LeappMissingMfaTokenError`. -/
inductive LeappError
  | daemonError (msg : Option String)
  | sessionNotFound
  | missingMfaToken (msg : Option String)
deriving DecidableEq, Repr

/-- `err.message` of a LeappError, as read by wrapping catch blocks. -/
def LeappError.message : LeappError → Option String
  | .daemonError m => m
  | .sessionNotFound => some "Session not found"
  | .missingMfaToken m => m

/-- Controller-visible state: the session store plus the ordered trace of every
HTTP request dispatched so far. -/
structure Ctrl where
  sessions : List Session
  calls : List RemoteCall
deriving DecidableEq, Repr

/-- `callDaemon(url, params, httpVerb)` of `daemon.service.ts` (the revision
bundled with this snapshot, the one exporting `apiRoot`/`WSDaemonMessage` that
`app.component.ts` imports): substitutes `:id`, dispatches the request, and on
rejection rethrows `LeappBaseError('Daemon Error', this, warn, err.error.error)`. -/
def callDaemon (daemon : Daemon) (url : DaemonUrls) (paramsId : Option String)
    (verb : Verb) (st : Ctrl) : Ctrl × Except LeappError String :=
  let call := mkCall url paramsId verb
  let st1 : Ctrl := { st with calls := st.calls ++ [call] }
  match daemon call with
  | .ok data => (st1, .ok data)
  | .error e => (st1, .error (.daemonError e.serverMessage))

/-- A `callDaemon` invocation whose promise the source never awaits: the
request is dispatched (recorded in the trace), its result and any rejection
are observed by no caller. -/
def callDaemonNoWait (url : DaemonUrls) (paramsId : Option String) (verb : Verb)
    (st : Ctrl) : Ctrl :=
  { st with calls := st.calls ++ [mkCall url paramsId verb] }

/-- Boolean id test used by the store lookups (`sess.sessionId === sessionId`). -/
def byId (id : String) : Session → Bool := fun s => decide (s.sessionId = id)

/-- Modelled from the spec: `SessionService.get` (§4.3) — not under src/ —
"`get` on an unknown id fails with `SessionNotFoundError`". -/
def getSession (store : List Session) (id : String) : Except LeappError Session :=
  match store.find? (byId id) with
  | some s => .ok s
  | none => .error .sessionNotFound

/-- Replace the status of the entry with the given id (identity elsewhere). -/
def applyStatus (id : String) (c : SessionStatus) (s : Session) : Session :=
  if s.sessionId = id then { s with status := c } else s

/-- Set the status of the session with the given id, whole-entry replacement
as the spec's store contract (§3, §4.3) requires. -/
def setStatus (store : List Session) (id : String) (c : SessionStatus) :
    List Session :=
  store.map (applyStatus id c)

/-- Modelled from the spec: the status-transition helpers of the abstract
`SessionService` (`sessionLoading`/`sessionActivate`/`sessionDeactivated`/
`sessionError`) — not under src/.  Each looks the session up (`get`, which
throws `SessionNotFoundError` on an unknown id, the behaviour §8 requires of
`start` on an unknown id) and replaces its status. -/
def statusTransition (store : List Session) (id : String) (c : SessionStatus) :
    Except LeappError (List Session) :=
  match getSession store id with
  | .ok _ => .ok (setStatus store id c)
  | .error e => .error e

/-- Modelled from the spec: `sessionLoading` sets status `loading`. -/
def sessionLoading (store : List Session) (id : String) :
    Except LeappError (List Session) :=
  statusTransition store id .loading

/-- Modelled from the spec: `sessionActivate` sets status `active`. -/
def sessionActivate (store : List Session) (id : String) :
    Except LeappError (List Session) :=
  statusTransition store id .active

/-- Modelled from the spec: `sessionDeactivated` sets status `stopped`. -/
def sessionDeactivated (store : List Session) (id : String) :
    Except LeappError (List Session) :=
  statusTransition store id .stopped

/-- Modelled from the spec: `sessionError(sessionId, error)` routes a failure
into the session's status (§4.4 error policy: status becomes `error`, nothing
is rethrown for a found session); the original error argument is only logged. -/
def sessionError (store : List Session) (id : String) (e : LeappError) :
    Except LeappError (List Session) :=
  statusTransition store id .error

/-- Modelled from the spec: `WorkspaceService.removeSession` (§4.3 `remove`). -/
def removeSession (store : List Session) (id : String) : List Session :=
  store.filter (fun s => !byId id s)

/-- Modelled from the spec: `WorkspaceService.addSession` (§4.3 `add`). -/
def addSession (store : List Session) (s : Session) : List Session :=
  store ++ [s]

/-- Modelled from the spec: `listIamRoleChained(session)` (§4.4) — "Enumerate
all chained sessions whose `parentSessionId` equals this session's id". -/
def listIamRoleChained (store : List Session) (pid : String) : List Session :=
  store.filter (fun s =>
    decide (s.typ = SessionType.awsIamRoleChained) &&
    decide (s.parentSessionId = some pid))

/-- `AwsIamUserService.start` (aws-iam-user.service.ts:46-56): set the session
loading, POST `/:id/start`, on success activate; any throw is caught and routed
through `sessionError`. -/
def start (daemon : Daemon) (st : Ctrl) (sessionId : String) :
    Ctrl × Except LeappError Unit :=
  let attempt : Ctrl × Except LeappError Unit :=
    match sessionLoading st.sessions sessionId with
    | .error e => (st, .error e)
    | .ok store1 =>
      let (st1, r) := callDaemon daemon .startIamUserSession (some sessionId)
        .POST { st with sessions := store1 }
      match r with
      | .error e => (st1, .error e)
      | .ok _ =>
        match sessionActivate st1.sessions sessionId with
        | .ok store2 => ({ st1 with sessions := store2 }, .ok ())
        | .error e => (st1, .error e)
  match attempt with
  | (st2, .ok _) => (st2, .ok ())
  | (st2, .error e) =>
    match sessionError st2.sessions sessionId e with
    | .ok store2 => ({ st2 with sessions := store2 }, .ok ())
    | .error e2 => (st2, .error e2)

/-- `AwsIamUserService.stop` (aws-iam-user.service.ts:62-71): POST `/:id/stop`,
on success deactivate; any throw is caught and routed through `sessionError`. -/
def stop (daemon : Daemon) (st : Ctrl) (sessionId : String) :
    Ctrl × Except LeappError Unit :=
  let attempt : Ctrl × Except LeappError Unit :=
    let (st1, r) := callDaemon daemon .stopIamUserSession (some sessionId) .POST st
    match r with
    | .error e => (st1, .error e)
    | .ok _ =>
      match sessionDeactivated st1.sessions sessionId with
      | .ok store2 => ({ st1 with sessions := store2 }, .ok ())
      | .error e => (st1, .error e)
  match attempt with
  | (st2, .ok _) => (st2, .ok ())
  | (st2, .error e) =>
    match sessionError st2.sessions sessionId e with
    | .ok store2 => ({ st2 with sessions := store2 }, .ok ())
    | .error e2 => (st2, .error e2)

/-- The `AwsIamUserSessionRequest` interface. -/
structure AwsIamUserSessionRequest where
  accountName : String
  accessKey : String
  secretKey : String
  region : String
  mfaDevice : Option String
deriving DecidableEq, Repr

/-- `AwsIamUserService.create` (aws-iam-user.service.ts:73-95): POST the create
dto; on success add a new session holding the daemon-issued id (a fresh
`AwsIamUserSession` starts `stopped`); on failure rethrow
`LeappBaseError('Daemon Error', this, warn, err.message)`. -/
def create (daemon : Daemon) (st : Ctrl) (req : AwsIamUserSessionRequest)
    (profileId : String) : Ctrl × Except LeappError Unit :=
  let (st1, r) := callDaemon daemon .createIamUser none .POST st
  match r with
  | .ok data =>
    let session : Session :=
      { sessionId := data
        typ := .awsIamUser
        status := .stopped
        sessionName := req.accountName
        region := req.region
        profileId := profileId
        mfaDevice := req.mfaDevice
        parentSessionId := none }
    ({ st1 with sessions := addSession st1.sessions session }, .ok ())
  | .error e => (st1, .error (.daemonError e.message))

/-- `AwsIamUserService.update` (aws-iam-user.service.ts:97-122): find the index
of `sessionId`; if absent do nothing; otherwise PUT the edit dto and on success
overwrite the store entry at that index with the caller-supplied `session`
object (no check that `session.sessionId` equals `sessionId`); a throw is
caught and routed through `sessionError`. -/
def update (daemon : Daemon) (st : Ctrl) (sessionId : String) (session : Session)
    (accessKey secretKey : Option String) : Ctrl × Except LeappError Unit :=
  match st.sessions.findIdx? (byId sessionId) with
  | none => (st, .ok ())
  | some index =>
    let attempt : Ctrl × Except LeappError Unit :=
      let (st1, r) := callDaemon daemon .editIamUser (some sessionId) .PUT st
      match r with
      | .ok _ => ({ st1 with sessions := st1.sessions.set index session }, .ok ())
      | .error e => (st1, .error e)
    match attempt with
    | (st2, .ok _) => (st2, .ok ())
    | (st2, .error e) =>
      match sessionError st2.sessions sessionId e with
      | .ok store2 => ({ st2 with sessions := store2 }, .ok ())
      | .error e2 => (st2, .error e2)

/-- One iteration of the dependent-session loop of `AwsIamUserService.delete`
(aws-iam-user.service.ts:129-136): `stop` and the remote delete of a dependent
are fired without `await` (only the dispatch is observable — their
continuations run after the dependent has been removed from the store and act
on a no-longer-present id), then the dependent is removed from the store. -/
def cascadeStep (st : Ctrl) (dep : Session) : Ctrl :=
  let st1 :=
    if dep.status = SessionStatus.active then
      callDaemonNoWait .stopIamUserSession (some dep.sessionId) .POST st
    else st
  let st2 := callDaemonNoWait .deleteIamUser (some dep.sessionId) .DELETE st1
  { st2 with sessions := removeSession st2.sessions dep.sessionId }

/-- `AwsIamUserService.delete` (aws-iam-user.service.ts:124-144): if the
session is active, `await stop(sessionId)` first; enumerate the chained
dependents; for each, fire stop (if active) and the remote delete without
awaiting and remove it from the store; then fire the parent's remote delete —
also without `await` — and remove the parent.  Synchronous throws (the store
lookups) are caught and routed through `sessionError`. -/
def delete (daemon : Daemon) (st : Ctrl) (sessionId : String) :
    Ctrl × Except LeappError Unit :=
  let attempt : Ctrl × Except LeappError Unit :=
    match getSession st.sessions sessionId with
    | .error e => (st, .error e)
    | .ok p =>
      let (st1, r1) :=
        if p.status = SessionStatus.active then stop daemon st sessionId
        else (st, .ok ())
      match r1 with
      | .error e => (st1, .error e)
      | .ok _ =>
        match getSession st1.sessions sessionId with
        | .error e => (st1, .error e)
        | .ok p2 =>
          let deps := listIamRoleChained st1.sessions p2.sessionId
          let st2 := deps.foldl cascadeStep st1
          let st3 := callDaemonNoWait .deleteIamUser (some sessionId) .DELETE st2
          ({ st3 with sessions := removeSession st3.sessions sessionId }, .ok ())
  match attempt with
  | (st2, .ok _) => (st2, .ok ())
  | (st2, .error e) =>
    match sessionError st2.sessions sessionId e with
    | .ok store2 => ({ st2 with sessions := store2 }, .ok ())
    | .error e2 => (st2, .error e2)

/-- Application state for the MFA coordinator of `app.component.ts`: the
`mfaSemaphore` instance field plus the controller state. -/
structure AppState where
  mfaSemaphore : Bool
  ctrl : Ctrl
deriving DecidableEq, Repr

/-- A parsed websocket frame: `{ MessageType, Data: { SessionId } }` (JSON
parsing is outside the embedded core). -/
structure WsFrame where
  messageType : Nat
  sessionId : String
deriving DecidableEq, Repr

/-- `WSDaemonMessage.mfaTokenRequest` — the first (and only) enum member. -/
def mfaTokenRequestMessage : Nat := 0

/-- The input dialog the coordinator opens: session id it is for, and the
daemon-provided label shown to the user. -/
structure PromptRequest where
  sessionId : String
  sessionAlias : String
deriving DecidableEq, Repr

/-- The `webSocket.onmessage` handler (app.component.ts:192-220) up to the
point where the input dialog opens: if the frame is an MFA token request and
the semaphore is free, take the semaphore, GET the session from the daemon for
its label and open the prompt; if the GET rejects, the (unawaited) handler
aborts — with the semaphore still taken.  Otherwise the frame is ignored. -/
def handleWsMessage (daemon : Daemon) (st : AppState) (msg : WsFrame) :
    AppState × Option PromptRequest :=
  if msg.messageType = mfaTokenRequestMessage ∧ st.mfaSemaphore = false then
    let (c1, r) := callDaemon daemon .getIamUser (some msg.sessionId) .GET st.ctrl
    match r with
    | .ok name => (⟨true, c1⟩, some ⟨msg.sessionId, name⟩)
    | .error _ => (⟨true, c1⟩, none)
  else
    (st, none)

/-- What the user did with the MFA input dialog. -/
inductive PromptAnswer
  | cancelled
  | code (tok : String)
deriving DecidableEq, Repr

/-- The input-dialog callback (app.component.ts:202-217): a supplied code is
POSTed as the MFA confirmation; `confirmClosed` (explicit cancellation) throws
`LeappBaseError('Mfa Error', …, 'Missing Mfa Code')`; the catch stops the
owning session and rethrows `LeappMissingMfaTokenError(this, err.message)`;
the `finally` clears `mfaSemaphore` on every path.  The second component is the
error the callback surfaces (as an unhandled rejection), if any. -/
def resolvePrompt (daemon : Daemon) (st : AppState) (sessionId : String)
    (ans : PromptAnswer) : AppState × Option LeappError :=
  match ans with
  | .code tok =>
    let (c1, r) := callDaemon daemon .iamUserConfirmMfaCode (some sessionId) .POST st.ctrl
    match r with
    | .ok _ => (⟨false, c1⟩, none)
    | .error e =>
      let (c2, r2) := stop daemon c1 sessionId
      match r2 with
      | .ok _ => (⟨false, c2⟩, some (.missingMfaToken e.message))
      | .error e2 => (⟨false, c2⟩, some e2)
  | .cancelled =>
    let (c2, r2) := stop daemon st.ctrl sessionId
    match r2 with
    | .ok _ => (⟨false, c2⟩, some (.missingMfaToken (some "Missing Mfa Code")))
    | .error e2 => (⟨false, c2⟩, some e2)

/-- The status `stop` leaves on a found session: `stopped` when the daemon
accepts the stop request, `error` when it rejects it. -/
def stopStatus (daemon : Daemon) (id : String) : SessionStatus :=
  match daemon (mkCall .stopIamUserSession (some id) .POST) with
  | .ok _ => .stopped
  | .error _ => .error

/-- The status `start` leaves on a found session: `active` when the daemon
accepts the start request, `error` when it rejects it. -/
def startStatus (daemon : Daemon) (id : String) : SessionStatus :=
  match daemon (mkCall .startIamUserSession (some id) .POST) with
  | .ok _ => .active
  | .error _ => .error

/-- The requests one iteration of the dependent loop of `delete` dispatches. -/
def depCalls (d : Session) : List RemoteCall :=
  (if d.status = SessionStatus.active then
    [mkCall .stopIamUserSession (some d.sessionId) .POST]
   else []) ++ [mkCall .deleteIamUser (some d.sessionId) .DELETE]

/-- The requests the whole dependent loop of `delete` dispatches. -/
def cascadeCalls : List Session → List RemoteCall
  | [] => []
  | d :: rest => depCalls d ++ cascadeCalls rest

/-- Remove, in order, every listed dependent's id from a store. -/
def removeAll : List Session → List Session → List Session
  | l, [] => l
  | l, d :: rest => removeAll (removeSession l d.sessionId) rest

/-- The store as `delete` sees it after its parent-stop step: unchanged when
the parent was not active, otherwise with the parent's status rewritten by the
awaited `stop`. -/
def parentStore (daemon : Daemon) (store : List Session) (pid : String) :
    List Session :=
  match store.find? (byId pid) with
  | some p =>
    if p.status = SessionStatus.active then setStatus store pid (stopStatus daemon pid)
    else store
  | none => store

/-- The requests the parent-stop step of `delete` dispatches. -/
def parentStopCalls (store : List Session) (pid : String) : List RemoteCall :=
  match store.find? (byId pid) with
  | some p =>
    if p.status = SessionStatus.active then [mkCall .stopIamUserSession (some pid) .POST]
    else []
  | none => []

/-- Recognise a remote delete request. -/
def isDeleteCall : RemoteCall → Bool :=
  fun c => decide (c.template = DaemonUrls.deleteIamUser)

/-- A sample session builder for concrete witnesses. -/
def mkSession (id : String) (t : SessionType) (c : SessionStatus)
    (parent : Option String) : Session :=
  ⟨id, t, c, "name", "region", "profile", none, parent⟩

/-- A daemon that accepts every request. -/
def okDaemon : Daemon := fun _ => .ok ""

/-- A daemon that rejects every request with a bare transport error. -/
def failDaemon : Daemon := fun _ => .error ⟨"ECONNREFUSED", none⟩

/-! ### Store lemmas -/

theorem applyStatus_sessionId (id : String) (c : SessionStatus) (s : Session) :
    (applyStatus id c s).sessionId = s.sessionId := by
  unfold applyStatus
  split <;> rfl

theorem byId_applyStatus (j id : String) (c : SessionStatus) (s : Session) :
    byId j (applyStatus id c s) = byId j s := by
  unfold byId
  rw [applyStatus_sessionId]

theorem find?_setStatus (l : List Session) (id : String) (c : SessionStatus)
    (j : String) :
    (setStatus l id c).find? (byId j) = (l.find? (byId j)).map (applyStatus id c) := by
  unfold setStatus
  rw [List.find?_map]
  have h : byId j ∘ applyStatus id c = byId j := funext (byId_applyStatus j id c)
  rw [h]

theorem setStatus_setStatus (l : List Session) (id : String) (a b : SessionStatus) :
    setStatus (setStatus l id a) id b = setStatus l id b := by
  unfold setStatus
  rw [List.map_map]
  have h : applyStatus id b ∘ applyStatus id a = applyStatus id b := by
    funext s
    unfold Function.comp applyStatus
    by_cases hs : s.sessionId = id <;> simp [hs]
  rw [h]

theorem status_of_mem_setStatus {s : Session} {l : List Session} {id : String}
    {c : SessionStatus} (hm : s ∈ setStatus l id c) (hid : s.sessionId = id) :
    s.status = c := by
  unfold setStatus at hm
  rcases List.mem_map.mp hm with ⟨t, ht, heq⟩
  subst heq
  unfold applyStatus at hid ⊢
  by_cases h : t.sessionId = id
  · simp [h]
  · simp [h] at hid

theorem listIamRoleChained_setStatus (l : List Session) (id : String)
    (c : SessionStatus) (pid : String) :
    listIamRoleChained (setStatus l id c) pid
      = (listIamRoleChained l pid).map (applyStatus id c) := by
  unfold listIamRoleChained setStatus
  rw [List.filter_map]
  have h : (fun s => decide (s.typ = SessionType.awsIamRoleChained) &&
        decide (s.parentSessionId = some pid)) ∘ applyStatus id c
      = fun s => decide (s.typ = SessionType.awsIamRoleChained) &&
        decide (s.parentSessionId = some pid) := by
    funext s
    unfold Function.comp applyStatus
    by_cases hs : s.sessionId = id <;> simp [hs]
  rw [h]

theorem mem_removeSession {s : Session} {l : List Session} {id : String} :
    s ∈ removeSession l id ↔ s ∈ l ∧ s.sessionId ≠ id := by
  unfold removeSession byId
  simp [List.mem_filter]

theorem mem_removeAll {s : Session} {deps : List Session} {l : List Session}
    (h : s ∈ removeAll l deps) :
    s ∈ l ∧ ∀ d ∈ deps, s.sessionId ≠ d.sessionId := by
  induction deps generalizing l with
  | nil => exact ⟨h, by simp⟩
  | cons d rest ih =>
    unfold removeAll at h
    rcases ih h with ⟨h1, h2⟩
    rcases mem_removeSession.mp h1 with ⟨h3, h4⟩
    refine ⟨h3, ?_⟩
    intro d' hd'
    rcases List.mem_cons.mp hd' with hd' | hd'
    · rw [hd']
      exact h4
    · exact h2 d' hd'

/-! ### Cascade-loop lemmas -/

theorem cascadeStep_eq (st : Ctrl) (d : Session) :
    cascadeStep st d
      = ⟨removeSession st.sessions d.sessionId, st.calls ++ depCalls d⟩ := by
  by_cases h : d.status = SessionStatus.active <;>
    simp [cascadeStep, callDaemonNoWait, depCalls, h]

theorem foldl_cascadeStep (deps : List Session) (st : Ctrl) :
    deps.foldl cascadeStep st
      = ⟨removeAll st.sessions deps, st.calls ++ cascadeCalls deps⟩ := by
  induction deps generalizing st with
  | nil => simp [cascadeCalls, removeAll]
  | cons d rest ih =>
    rw [List.foldl_cons, cascadeStep_eq, ih]
    simp [cascadeCalls, removeAll]

theorem countP_depCalls (d : Session) : (depCalls d).countP isDeleteCall = 1 := by
  by_cases h : d.status = SessionStatus.active <;>
    simp [depCalls, h, isDeleteCall, mkCall, List.countP_append, List.countP_cons]

theorem countP_cascadeCalls (deps : List Session) :
    (cascadeCalls deps).countP isDeleteCall = deps.length := by
  induction deps with
  | nil => simp [cascadeCalls]
  | cons d rest ih =>
    simp [cascadeCalls, List.countP_append, countP_depCalls, ih, Nat.add_comm]

/-! ### Operation-level characterisation lemmas -/

theorem stop_found (daemon : Daemon) (st : Ctrl) (id : String)
    (h : (st.sessions.find? (byId id)).isSome = true) :
    stop daemon st id =
      (⟨setStatus st.sessions id (stopStatus daemon id),
        st.calls ++ [mkCall .stopIamUserSession (some id) .POST]⟩, .ok ()) := by
  rcases Option.isSome_iff_exists.mp h with ⟨p, hp⟩
  unfold stop callDaemon stopStatus
  cases hd : daemon (mkCall .stopIamUserSession (some id) .POST) with
  | ok v => simp [hd, sessionDeactivated, statusTransition, getSession, hp]
  | error e => simp [hd, sessionError, statusTransition, getSession, hp]

theorem start_found (daemon : Daemon) (st : Ctrl) (id : String)
    (h : (st.sessions.find? (byId id)).isSome = true) :
    start daemon st id =
      (⟨setStatus st.sessions id (startStatus daemon id),
        st.calls ++ [mkCall .startIamUserSession (some id) .POST]⟩, .ok ()) := by
  rcases Option.isSome_iff_exists.mp h with ⟨p, hp⟩
  unfold start callDaemon startStatus sessionLoading
  cases hd : daemon (mkCall .startIamUserSession (some id) .POST) with
  | ok v =>
    simp [hd, statusTransition, getSession, hp, sessionActivate,
      find?_setStatus, setStatus_setStatus]
  | error e =>
    simp [hd, statusTransition, getSession, hp, sessionError,
      find?_setStatus, setStatus_setStatus]

theorem find?_isSome_of_findIdx? {l : List Session} {p : Session → Bool} {i : Nat}
    (h : l.findIdx? p = some i) : (l.find? p).isSome = true := by
  have h1 : (l.findIdx? p).isSome = true := by rw [h]; rfl
  rw [List.findIdx?_isSome] at h1
  rw [List.find?_isSome]
  exact List.any_eq_true.mp h1

theorem update_found_ok (daemon : Daemon) (st : Ctrl) (id : String)
    (session : Session) (ak sk : Option String) (i : Nat)
    (hi : st.sessions.findIdx? (byId id) = some i) (v : String)
    (hd : daemon (mkCall .editIamUser (some id) .PUT) = .ok v) :
    update daemon st id session ak sk =
      (⟨st.sessions.set i session,
        st.calls ++ [mkCall .editIamUser (some id) .PUT]⟩, .ok ()) := by
  unfold update callDaemon
  simp [hi, hd]

theorem update_found_fail (daemon : Daemon) (st : Ctrl) (id : String)
    (session : Session) (ak sk : Option String) (i : Nat)
    (hi : st.sessions.findIdx? (byId id) = some i) (e : HttpFailure)
    (hd : daemon (mkCall .editIamUser (some id) .PUT) = .error e) :
    update daemon st id session ak sk =
      (⟨setStatus st.sessions id SessionStatus.error,
        st.calls ++ [mkCall .editIamUser (some id) .PUT]⟩, .ok ()) := by
  rcases Option.isSome_iff_exists.mp (find?_isSome_of_findIdx? hi) with ⟨p, hp⟩
  unfold update callDaemon
  simp [hi, hd, sessionError, statusTransition, getSession, hp]

theorem create_fail (daemon : Daemon) (st : Ctrl) (req : AwsIamUserSessionRequest)
    (profileId : String) (e : HttpFailure)
    (hd : daemon (mkCall .createIamUser none .POST) = .error e) :
    create daemon st req profileId =
      (⟨st.sessions, st.calls ++ [mkCall .createIamUser none .POST]⟩,
       .error (.daemonError e.serverMessage)) := by
  unfold create callDaemon
  simp [hd, LeappError.message]

theorem delete_found (daemon : Daemon) (store : List Session)
    (trace : List RemoteCall) (pid : String)
    (h : (store.find? (byId pid)).isSome = true) :
    delete daemon ⟨store, trace⟩ pid =
      (⟨removeSession (removeAll (parentStore daemon store pid)
            (listIamRoleChained (parentStore daemon store pid) pid)) pid,
        trace ++ parentStopCalls store pid
          ++ cascadeCalls (listIamRoleChained (parentStore daemon store pid) pid)
          ++ [mkCall .deleteIamUser (some pid) .DELETE]⟩, .ok ()) := by
  rcases Option.isSome_iff_exists.mp h with ⟨p, hp⟩
  have hpid : p.sessionId = pid := by
    have := List.find?_some hp
    unfold byId at this
    exact of_decide_eq_true this
  unfold delete parentStore parentStopCalls
  by_cases hact : p.status = SessionStatus.active
  · rw [stop_found daemon ⟨store, trace⟩ pid (by simpa using h)]
    have hp2 : (setStatus store pid (stopStatus daemon pid)).find? (byId pid)
        = some (applyStatus pid (stopStatus daemon pid) p) := by
      rw [find?_setStatus, hp]
      rfl
    simp only [getSession, hp, hp2, hact, if_true]
    rw [applyStatus_sessionId, hpid]
    rw [foldl_cascadeStep]
    simp [callDaemonNoWait, List.append_assoc]
  · simp only [getSession, hp, hact, if_false]
    rw [hpid, foldl_cascadeStep]
    simp [callDaemonNoWait, List.append_assoc]

theorem countP_parentStopCalls (store : List Session) (pid : String) :
    (parentStopCalls store pid).countP isDeleteCall = 0 := by
  unfold parentStopCalls
  cases store.find? (byId pid) with
  | none => rfl
  | some p =>
    by_cases h : p.status = SessionStatus.active <;>
      simp [h, isDeleteCall, mkCall, List.countP_cons]

theorem length_listIamRoleChained_parentStore (daemon : Daemon)
    (store : List Session) (pid : String) :
    (listIamRoleChained (parentStore daemon store pid) pid).length
      = (listIamRoleChained store pid).length := by
  unfold parentStore
  cases store.find? (byId pid) with
  | none => rfl
  | some p =>
    by_cases h : p.status = SessionStatus.active
    · simp [h, listIamRoleChained_setStatus]
    · simp [h]

theorem mem_listIamRoleChained {s : Session} {l : List Session} {pid : String}
    (hs : s ∈ l) (ht : s.typ = SessionType.awsIamRoleChained)
    (hpar : s.parentSessionId = some pid) : s ∈ listIamRoleChained l pid := by
  unfold listIamRoleChained
  rw [List.mem_filter]
  exact ⟨hs, by simp [ht, hpar]⟩

/-! ### Claim theorems -/

/-- Claim C1 (amended): for a session `pid` present in the store with N chained
dependents, `delete pid` returns normally and issues exactly N+1 remote delete
requests, the parent's delete request is dispatched last (only after every
dependent has been processed), and afterwards the store contains no session
with `sessionId = pid` and no chained session with `parentSessionId = pid` —
for every daemon behaviour, so in particular even if any of the dependent
remote deletes fail (they are dispatched without `await`, so their outcome is
never observed).  The original claim's stronger postcondition — no remaining
session references ANY removed id — fails because the cascade is one level
deep; see the counterexample. -/
theorem delete_cascade_behaviour (daemon : Daemon) (store : List Session)
    (pid : String) (h : (store.find? (byId pid)).isSome = true) :
    (delete daemon ⟨store, []⟩ pid).2 = .ok () ∧
    (delete daemon ⟨store, []⟩ pid).1.calls.countP isDeleteCall
      = (listIamRoleChained store pid).length + 1 ∧
    (delete daemon ⟨store, []⟩ pid).1.calls.getLast?
      = some (mkCall .deleteIamUser (some pid) .DELETE) ∧
    (∀ s ∈ (delete daemon ⟨store, []⟩ pid).1.sessions, s.sessionId ≠ pid) ∧
    (∀ s ∈ (delete daemon ⟨store, []⟩ pid).1.sessions,
      ¬(s.typ = SessionType.awsIamRoleChained ∧ s.parentSessionId = some pid)) := by
  rw [delete_found daemon store [] pid h]
  refine ⟨rfl, ?_, ?_, ?_, ?_⟩
  · simp [List.countP_append, countP_parentStopCalls, countP_cascadeCalls,
      isDeleteCall, mkCall, List.countP_cons,
      length_listIamRoleChained_parentStore]
  · exact List.getLast?_concat _
  · intro s hs
    exact (mem_removeSession.mp hs).2
  · intro s hs hcontra
    rcases mem_removeAll (mem_removeSession.mp hs).1 with ⟨hmem, hids⟩
    exact hids s (mem_listIamRoleChained hmem hcontra.1 hcontra.2) rfl

/-- Claim C1 witness: the amended theorem applied to a concrete store of one
parent with one chained dependent. -/
theorem delete_cascade_behaviour_witness :
    (delete okDaemon ⟨[mkSession "p" SessionType.awsIamUser SessionStatus.stopped none,
        mkSession "d" SessionType.awsIamRoleChained SessionStatus.stopped (some "p")],
        []⟩ "p").1.calls.countP isDeleteCall
      = (listIamRoleChained
          [mkSession "p" SessionType.awsIamUser SessionStatus.stopped none,
           mkSession "d" SessionType.awsIamRoleChained SessionStatus.stopped (some "p")]
          "p").length + 1 :=
  (delete_cascade_behaviour okDaemon
    [mkSession "p" SessionType.awsIamUser SessionStatus.stopped none,
     mkSession "d" SessionType.awsIamRoleChained SessionStatus.stopped (some "p")]
    "p" (by decide)).2.1

/-- Claim C1 counterexample: with store [p; d chained to p; g chained to d],
`delete p` removes p and d (its ids are the removed ids) but leaves g, whose
`parentSessionId` is the removed id "d" — refuting the original claim that
afterwards no session's `parentSessionId` equals one of the removed ids. -/
theorem delete_cascade_grandchild_cex :
    (delete okDaemon ⟨[mkSession "p" SessionType.awsIamUser SessionStatus.stopped none,
        mkSession "d" SessionType.awsIamRoleChained SessionStatus.stopped (some "p"),
        mkSession "g" SessionType.awsIamRoleChained SessionStatus.stopped (some "d")],
        []⟩ "p").1.sessions
      = [mkSession "g" SessionType.awsIamRoleChained SessionStatus.stopped (some "d")] ∧
    (mkSession "g" SessionType.awsIamRoleChained SessionStatus.stopped
        (some "d")).parentSessionId = some "d" ∧
    mkCall .deleteIamUser (some "d") .DELETE
      ∈ (delete okDaemon ⟨[mkSession "p" SessionType.awsIamUser SessionStatus.stopped none,
          mkSession "d" SessionType.awsIamRoleChained SessionStatus.stopped (some "p"),
          mkSession "g" SessionType.awsIamRoleChained SessionStatus.stopped (some "d")],
          []⟩ "p").1.calls := by decide

/-- Claim C2 (amended): `create` propagates a wrapped 'Daemon Error' to its
caller on remote failure; `start`, `stop` and `update` on a found session
absorb a remote failure by setting that session's status to `error` and return
normally; and the final parent-delete step of a cascading `delete` does NOT
propagate its error to the caller — the parent's remote delete is dispatched
without `await`, so `delete` returns normally whatever the daemon answers
(the original claim said this step propagates; see the counterexample). -/
theorem error_policy (daemon : Daemon) :
    (∀ (st : Ctrl) (req : AwsIamUserSessionRequest) (profileId : String)
        (e : HttpFailure), daemon (mkCall .createIamUser none .POST) = .error e →
      (create daemon st req profileId).2 = .error (.daemonError e.serverMessage)) ∧
    (∀ (st : Ctrl) (id : String), (st.sessions.find? (byId id)).isSome = true →
      (start daemon st id).2 = .ok () ∧
      ∀ e : HttpFailure, daemon (mkCall .startIamUserSession (some id) .POST) = .error e →
        ∀ s ∈ (start daemon st id).1.sessions, s.sessionId = id →
          s.status = SessionStatus.error) ∧
    (∀ (st : Ctrl) (id : String), (st.sessions.find? (byId id)).isSome = true →
      (stop daemon st id).2 = .ok () ∧
      ∀ e : HttpFailure, daemon (mkCall .stopIamUserSession (some id) .POST) = .error e →
        ∀ s ∈ (stop daemon st id).1.sessions, s.sessionId = id →
          s.status = SessionStatus.error) ∧
    (∀ (st : Ctrl) (id : String) (session : Session) (ak sk : Option String)
        (i : Nat), st.sessions.findIdx? (byId id) = some i →
      ∀ e : HttpFailure, daemon (mkCall .editIamUser (some id) .PUT) = .error e →
        (update daemon st id session ak sk).2 = .ok () ∧
        ∀ s ∈ (update daemon st id session ak sk).1.sessions, s.sessionId = id →
          s.status = SessionStatus.error) ∧
    (∀ (store : List Session) (trace : List RemoteCall) (pid : String),
      (store.find? (byId pid)).isSome = true →
      (delete daemon ⟨store, trace⟩ pid).2 = .ok ()) := by
  refine ⟨?_, ?_, ?_, ?_, ?_⟩
  · intro st req profileId e hd
    rw [create_fail daemon st req profileId e hd]
  · intro st id h
    rw [start_found daemon st id h]
    refine ⟨rfl, ?_⟩
    intro e hd s hs hid
    have : startStatus daemon id = SessionStatus.error := by
      unfold startStatus
      rw [hd]
    rw [← this]
    exact status_of_mem_setStatus hs hid
  · intro st id h
    rw [stop_found daemon st id h]
    refine ⟨rfl, ?_⟩
    intro e hd s hs hid
    have : stopStatus daemon id = SessionStatus.error := by
      unfold stopStatus
      rw [hd]
    rw [← this]
    exact status_of_mem_setStatus hs hid
  · intro st id session ak sk i hi e hd
    rw [update_found_fail daemon st id session ak sk i hi e hd]
    exact ⟨rfl, fun s hs hid => status_of_mem_setStatus hs hid⟩
  · intro store trace pid h
    rw [delete_found daemon store trace pid h]

/-- Claim C2 witness: the amended policy applied to a daemon that rejects every
request and a one-session store. -/
theorem error_policy_witness :
    (create failDaemon ⟨[], []⟩ ⟨"acc", "ak", "sk", "r", none⟩ "prof").2
      = .error (.daemonError none) ∧
    (delete failDaemon
      ⟨[mkSession "p" SessionType.awsIamUser SessionStatus.stopped none], []⟩ "p").2
      = .ok () :=
  ⟨(error_policy failDaemon).1 ⟨[], []⟩ ⟨"acc", "ak", "sk", "r", none⟩ "prof"
      ⟨"ECONNREFUSED", none⟩ rfl,
   (error_policy failDaemon).2.2.2.2
      [mkSession "p" SessionType.awsIamUser SessionStatus.stopped none] [] "p"
      (by decide)⟩

/-- Claim C2 counterexample: the parent's remote delete is rejected by the
daemon, yet `delete` returns `.ok ()` — the failure of the final parent-delete
step does not propagate to the caller (the promise is never awaited), refuting
the original propagation claim. -/
theorem delete_no_propagation_cex :
    (delete failDaemon
        ⟨[mkSession "p" SessionType.awsIamUser SessionStatus.stopped none], []⟩
        "p").2 = .ok () ∧
    failDaemon (mkCall .deleteIamUser (some "p") .DELETE)
      = .error ⟨"ECONNREFUSED", none⟩ ∧
    mkCall .deleteIamUser (some "p") .DELETE
      ∈ (delete failDaemon
          ⟨[mkSession "p" SessionType.awsIamUser SessionStatus.stopped none], []⟩
          "p").1.calls := by decide

/-- Claim C3: for a session id present in the store, `start id` returns
normally, and the session afterwards has status `active` when the daemon
accepted the start request and status `error` when it rejected it — in
particular it is never left with status `loading`. -/
theorem start_transitions (daemon : Daemon) (store : List Session)
    (trace : List RemoteCall) (id : String)
    (h : (store.find? (byId id)).isSome = true) :
    (start daemon ⟨store, trace⟩ id).2 = .ok () ∧
    ∀ s ∈ (start daemon ⟨store, trace⟩ id).1.sessions, s.sessionId = id →
      (∀ v, daemon (mkCall .startIamUserSession (some id) .POST) = .ok v →
        s.status = SessionStatus.active) ∧
      (∀ e, daemon (mkCall .startIamUserSession (some id) .POST) = .error e →
        s.status = SessionStatus.error) ∧
      s.status ≠ SessionStatus.loading := by
  rw [start_found daemon ⟨store, trace⟩ id h]
  refine ⟨rfl, ?_⟩
  intro s hs hid
  have hst : s.status = startStatus daemon id := status_of_mem_setStatus hs hid
  refine ⟨?_, ?_, ?_⟩
  · intro v hd
    rw [hst]
    unfold startStatus
    rw [hd]
  · intro e hd
    rw [hst]
    unfold startStatus
    rw [hd]
  · rw [hst]
    unfold startStatus
    cases daemon (mkCall .startIamUserSession (some id) .POST) <;> simp

/-- Claim C3 witness: `start` on a concrete one-session store. -/
theorem start_transitions_witness :
    (start okDaemon
      ⟨[mkSession "a" SessionType.awsIamUser SessionStatus.stopped none], []⟩
      "a").2 = .ok () :=
  (start_transitions okDaemon
    [mkSession "a" SessionType.awsIamUser SessionStatus.stopped none] [] "a"
    (by decide)).1

/-- Claim C4: `start` on an id absent from the store fails with
`SessionNotFoundError` (the modelled `sessionError`, run inside the catch
block, looks the session up again and rethrows it to the caller) and leaves
the whole state — store and dispatched-request trace — unchanged. -/
theorem start_unknown (daemon : Daemon) (st : Ctrl) (id : String)
    (h : st.sessions.find? (byId id) = none) :
    start daemon st id = (st, .error .sessionNotFound) := by
  unfold start sessionLoading sessionError statusTransition getSession
  simp [h]

/-- Claim C4 witness: `start` on an empty store. -/
theorem start_unknown_witness :
    start okDaemon ⟨[], []⟩ "a" = (⟨[], []⟩, .error .sessionNotFound) :=
  start_unknown okDaemon ⟨[], []⟩ "a" (by decide)

/-- Claim C5: while `mfaSemaphore` is held, every further incoming MFA
notification — for any session — is ignored and not queued: the handler
performs no daemon lookup, opens no prompt, and changes no state. -/
theorem mfa_gate_drops (daemon : Daemon) (st : AppState) (msg : WsFrame)
    (h : st.mfaSemaphore = true) :
    handleWsMessage daemon st msg = (st, none) := by
  unfold handleWsMessage
  simp [h]

/-- Claim C5 witness: a second notification (for a different session) arriving
while the gate is held is dropped. -/
theorem mfa_gate_drops_witness :
    handleWsMessage okDaemon ⟨true, ⟨[], []⟩⟩ ⟨0, "s2"⟩ = (⟨true, ⟨[], []⟩⟩, none) :=
  mfa_gate_drops okDaemon ⟨true, ⟨[], []⟩⟩ ⟨0, "s2"⟩ rfl

/-- Claim C6 (amended): for every MFA notification that reaches the
human-input step, the gate is cleared when that step resolves — whatever the
outcome (user-supplied code with the confirmation accepted or rejected by the
daemon, or explicit cancellation): the `finally` of the dialog callback sets
`mfaSemaphore` back to false on every path.  (If the daemon lookup that
precedes the prompt fails, the handler aborts before the dialog opens and the
gate is never cleared; see the counterexample.) -/
theorem mfa_gate_cleared (daemon : Daemon) (st : AppState) (sessionId : String)
    (ans : PromptAnswer) :
    (resolvePrompt daemon st sessionId ans).1.mfaSemaphore = false := by
  cases ans with
  | cancelled =>
    unfold resolvePrompt
    rcases hstop : stop daemon st.ctrl sessionId with ⟨c2, r2⟩
    simp only [hstop]
    cases r2 <;> rfl
  | code tok =>
    unfold resolvePrompt callDaemon
    cases hd : daemon (mkCall .iamUserConfirmMfaCode (some sessionId) .POST) with
    | ok v => simp [hd]
    | error e =>
      simp only [hd]
      rcases hstop : stop daemon
          ⟨st.ctrl.sessions,
           st.ctrl.calls ++ [mkCall .iamUserConfirmMfaCode (some sessionId) .POST]⟩
          sessionId with ⟨c2, r2⟩
      simp only [hstop]
      cases r2 <;> rfl

/-- Claim C6 counterexample: a notification is accepted for processing (the
gate is taken, the label lookup is dispatched), the lookup fails, processing
ends with no prompt — and the gate is still held, so a later notification,
even against a healthy daemon, is dropped: the gate is not cleared at the end
of processing this notification. -/
theorem mfa_gate_stuck_cex :
    (handleWsMessage failDaemon
        ⟨false, ⟨[mkSession "s1" SessionType.awsIamUser SessionStatus.active none], []⟩⟩
        ⟨0, "s1"⟩).2 = none ∧
    (handleWsMessage failDaemon
        ⟨false, ⟨[mkSession "s1" SessionType.awsIamUser SessionStatus.active none], []⟩⟩
        ⟨0, "s1"⟩).1.mfaSemaphore = true ∧
    (handleWsMessage okDaemon
        (handleWsMessage failDaemon
          ⟨false, ⟨[mkSession "s1" SessionType.awsIamUser SessionStatus.active none], []⟩⟩
          ⟨0, "s1"⟩).1
        ⟨0, "s2"⟩).2 = none := by decide

/-- Claim C7: when the user explicitly cancels the MFA prompt for a session
present in the store, the coordinator issues exactly one remote call — a stop
on the owning session — and surfaces `MissingMfaTokenError`; in particular no
MFA confirmation request is dispatched. -/
theorem mfa_cancel_stops_session (daemon : Daemon) (st : AppState)
    (sessionId : String)
    (h : (st.ctrl.sessions.find? (byId sessionId)).isSome = true) :
    (resolvePrompt daemon st sessionId .cancelled).2
      = some (.missingMfaToken (some "Missing Mfa Code")) ∧
    (resolvePrompt daemon st sessionId .cancelled).1.ctrl.calls
      = st.ctrl.calls ++ [mkCall .stopIamUserSession (some sessionId) .POST] := by
  unfold resolvePrompt
  rw [stop_found daemon st.ctrl sessionId h]
  exact ⟨rfl, rfl⟩

/-- Claim C7 witness: cancellation on a concrete one-session state. -/
theorem mfa_cancel_stops_session_witness :
    (resolvePrompt okDaemon
      ⟨true, ⟨[mkSession "s1" SessionType.awsIamUser SessionStatus.active none], []⟩⟩
      "s1" .cancelled).2 = some (.missingMfaToken (some "Missing Mfa Code")) :=
  (mfa_cancel_stops_session okDaemon
    ⟨true, ⟨[mkSession "s1" SessionType.awsIamUser SessionStatus.active none], []⟩⟩
    "s1" (by decide)).1

/-- Claim C8: `callDaemon` on a template containing `:id` with no `id` binding
in `params` does NOT fail before dispatching — `replaceAll(':id', undefined)`
coerces the absent binding to the string "undefined" and the request is
dispatched with that bogus URL.  This theorem evaluates the code at the
failing input, exhibiting the dispatched request. -/
theorem unbound_placeholder_dispatched (daemon : Daemon) (st : Ctrl) :
    (callDaemon daemon .getIamUser none .GET st).1.calls
      = st.calls ++ [⟨.getIamUser, none, .GET,
          "http://localhost:8080/api/v1/aws/iam-user-sessions/undefined"⟩] := by
  have hurl : mkCall .getIamUser none .GET
      = ⟨.getIamUser, none, .GET,
         "http://localhost:8080/api/v1/aws/iam-user-sessions/undefined"⟩ := by decide
  unfold callDaemon
  rw [hurl]
  cases hd : daemon (⟨.getIamUser, none, .GET,
      "http://localhost:8080/api/v1/aws/iam-user-sessions/undefined"⟩ : RemoteCall) <;>
    simp [hd]

/-- Claim C9 (amended): on any rejected exchange, `callDaemon` fails with the
'Daemon Error' wrapper carrying `err.error.error` — the server-provided
message when the server supplied one; when the server supplied none the
wrapper's message is absent (undefined), not the raw transport error. -/
theorem daemon_error_wrapped (daemon : Daemon) (u : DaemonUrls)
    (pid : Option String) (v : Verb) (st : Ctrl) (e : HttpFailure)
    (hd : daemon (mkCall u pid v) = .error e) :
    (callDaemon daemon u pid v st).2 = .error (.daemonError e.serverMessage) := by
  unfold callDaemon
  simp [hd]

/-- Claim C9 witness: a rejection carrying a server-provided message is
wrapped with that message. -/
theorem daemon_error_wrapped_witness :
    (callDaemon (fun _ => .error ⟨"500", some "session does not exist"⟩)
      .getIamUser (some "s1") .GET ⟨[], []⟩).2
      = .error (.daemonError (some "session does not exist")) :=
  daemon_error_wrapped (fun _ => .error ⟨"500", some "session does not exist"⟩)
    .getIamUser (some "s1") .GET ⟨[], []⟩ ⟨"500", some "session does not exist"⟩ rfl

/-- Claim C9 counterexample: a pure transport failure (the server supplied no
message) is wrapped with NO message — the raw transport error "ECONNREFUSED"
is not carried, refuting the original claim's second half. -/
theorem daemon_error_raw_cex :
    (callDaemon failDaemon .getIamUser (some "s1") .GET ⟨[], []⟩).2
      = .error (.daemonError none) ∧
    (LeappError.daemonError none).message ≠ some "ECONNREFUSED" := by decide

/-- Claim C10: `update` replaces the entry found at the index of `sessionId`
with the caller-supplied session object without checking its `sessionId`:
updating "a" with a session whose id is "b", while a session "b" already
exists, leaves the store with two entries of sessionId "b". -/
theorem update_breaks_unique_ids :
    (update okDaemon
        ⟨[mkSession "a" SessionType.awsIamUser SessionStatus.stopped none,
          mkSession "b" SessionType.awsIamUser SessionStatus.stopped none], []⟩
        "a" (mkSession "b" SessionType.awsIamUser SessionStatus.active none)
        none none).2 = .ok () ∧
    (update okDaemon
        ⟨[mkSession "a" SessionType.awsIamUser SessionStatus.stopped none,
          mkSession "b" SessionType.awsIamUser SessionStatus.stopped none], []⟩
        "a" (mkSession "b" SessionType.awsIamUser SessionStatus.active none)
        none none).1.sessions
      = [mkSession "b" SessionType.awsIamUser SessionStatus.active none,
         mkSession "b" SessionType.awsIamUser SessionStatus.stopped none] ∧
    (update okDaemon
        ⟨[mkSession "a" SessionType.awsIamUser SessionStatus.stopped none,
          mkSession "b" SessionType.awsIamUser SessionStatus.stopped none], []⟩
        "a" (mkSession "b" SessionType.awsIamUser SessionStatus.active none)
        none none).1.sessions.countP (byId "b") = 2 := by decide

end Leapp
